import Mathlib

/-!
# Verification of the neupy layer-connection spec and progress-bar formatter

Shallow embedding of `neupy/helpers/progressbar.py` (translated from the
source) and of the layer connection graph / shape-inference subsystem
(modelled from the spec, since only its tests are present in the sources).
-/

set_option autoImplicit false

namespace Neupy

/-! ## Progress bar formatter, from `neupy/helpers/progressbar.py` -/

/-- Left-pad a decimal rendering of `n` with zeros to width 2,
mirroring Python `'{:0>2d}'.format(n)`. -/
def pad2 (n : Nat) : String :=
  if n < 10 then "0" ++ toString n else toString n

/-- Left-pad a string with spaces to width `w`, mirroring Python
width specifiers such as `'%5.2f'` and `'%3d'`. -/
def padLeft (w : Nat) (s : String) : String :=
  String.mk (List.replicate (w - s.length) ' ') ++ s

/-- Translation of `format_interval(t)` from `progressbar.py`: renders a number of
seconds as `mm:ss`, or `hh:mm:ss` once there is at least one hour. -/
def format_interval (t : Nat) : String :=
  let mins := t / 60
  let seconds := t % 60
  let hours := mins / 60
  let minutes := mins % 60
  if hours > 0 then
    pad2 hours ++ ":" ++ pad2 minutes ++ ":" ++ pad2 seconds
  else
    pad2 minutes ++ ":" ++ pad2 seconds

/-- Rendering of `'%5.2f' % (num / den)` for `den ≠ 0`: the quotient
rounded to hundredths (exact rational arithmetic stands in for the
binary floating-point value) and padded to width 5. -/
def format_float_5_2 (num den : Nat) : String :=
  let hundredths := (100 * num + den / 2) / den
  padLeft 5 (toString (hundredths / 100) ++ "." ++ pad2 (hundredths % 100))

/-- The `rate` field of `format_meter`:
`'%5.2f' % (n_finished / elapsed) if elapsed else '?'`. -/
def meter_rate (n_finished elapsed : Nat) : String :=
  if elapsed ≠ 0 then format_float_5_2 n_finished elapsed else "?"

/-- The `left_str` field of `format_meter` when the total is known:
`format_interval(elapsed / n_finished * (n_total - n_finished)) if
n_finished else '?'` (the inner value truncated to an integer by
`format_interval`, computed here in exact arithmetic). -/
def meter_left (n_finished n_total elapsed : Nat) : String :=
  if n_finished ≠ 0 then
    format_interval (elapsed * (n_total - n_finished) / n_finished)
  else "?"

/-- Translation of `format_meter(n_finished, n_total, elapsed)` from `progressbar.py`.
`n_total = none` models Python `None`; the result is `none` exactly when
the Python code raises `ZeroDivisionError` (the unguarded division
`frac = float(n_finished) / n_total`).  First the code discards a total
smaller than the finished count (under Python 2 ordering `n > None` also
holds, leaving `None` as it is); with a known total it renders a ten-slot
bar, a truncated percentage, and an estimate of the remaining time; with
an unknown total it renders only the count, the elapsed time and the
rate. -/
def format_meter (n_finished : Nat) (n_total : Option Nat) (elapsed : Nat) :
    Option String :=
  let total : Option Nat :=
    match n_total with
    | some t => if n_finished > t then none else some t
    | none => none
  let elapsed_str := format_interval elapsed
  let rate := meter_rate n_finished elapsed
  match total with
  | some t =>
      if t = 0 then none
      else
        let bar_length := 10 * n_finished / t
        let bar := String.mk (List.replicate bar_length '#') ++
          String.mk (List.replicate (10 - bar_length) '-')
        let percentage := padLeft 3 (toString (100 * n_finished / t)) ++ "%"
        let left_str := meter_left n_finished t elapsed
        some ("|" ++ bar ++ "| " ++ toString n_finished ++ "/" ++ toString t
          ++ " " ++ percentage ++ " [elapsed: " ++ elapsed_str ++ " left: "
          ++ left_str ++ ", " ++ rate ++ " iters/sec]")
  | none =>
      some (toString n_finished ++ " [elapsed: " ++ elapsed_str ++ ", "
        ++ rate ++ " iters/sec]")

/-! ## Layer connection graph, modelled from the spec

The layer and connection sources of this repository are not present
(only their tests are), so the definitions below are modelled from the
spec: layer variants (section 3 and 4.1), the connection graph builder
(section 4.2) and the topology validator (section 4.3). -/

/-- Modelled from the spec: the layer variants of the missing
`neupy.layers` module that the tests exercise.  A fixed-size activation
layer declares a unit count; `Output` is the explicit output-designated
terminal layer; `Input` declares the network input shape (without the
batch axis); `PRelu` carries its broadcast-axis selection; `Reshape`
carries an optional explicit target shape; `SliceChannels` carries the
`[start, stop)` channel range. -/
inductive Layer where
  | Input (shape : List Nat)
  | Sigmoid (size : Nat)
  | Tanh (size : Nat)
  | Relu (size : Nat)
  | PRelu (size : Option Nat) (alphaAxes : List Nat)
  | Convolution (filters k1 k2 : Nat)
  | Reshape (target : Option (List Nat))
  | SliceChannels (start stop : Nat)
  | Output (size : Nat)
deriving DecidableEq

/-- Modelled from the spec: the declared unit count of a fixed-size
layer (`layer.size` in the tests); layers without a unit count report
`0`. -/
def Layer.size : Layer → Nat
  | .Sigmoid s => s
  | .Tanh s => s
  | .Relu s => s
  | .Output s => s
  | .PRelu (some s) _ => s
  | _ => 0

/-- Modelled from the spec: whether a layer is the explicit
output-designated terminal layer. -/
def Layer.isOutput : Layer → Bool
  | .Output _ => true
  | _ => false

/-- Modelled from the spec: a composed chain — the ordered layer
sequence together with the `relate_to_layer` backward link of each
layer (`none` for a layer with no predecessor). -/
structure Chain where
  layers : List Layer
  relate : List (Option Layer)
deriving DecidableEq

/-- Modelled from the spec: the backward links of a singly-linked path
whose first layer has predecessor `prev` — each later layer relates to
the layer before it. -/
def chainLinks (prev : Option Layer) : List Layer → List (Option Layer)
  | [] => []
  | l :: rest => prev :: chainLinks (some l) rest

/-- Modelled from the spec: a bare layer as a one-element chain with no
predecessor. -/
def Chain.single (l : Layer) : Chain :=
  ⟨[l], [none]⟩

/-- Modelled from the spec: building a chain from a flat list of layers
in one pass, linking each layer to the one before it. -/
def Chain.ofList (ls : List Layer) : Chain :=
  ⟨ls, chainLinks none ls⟩

/-- Modelled from the spec: the composition operator (`>` in the
tests).  It concatenates the two layer sequences and sets the
`relate_to_layer` backward link of the right operand's first layer to
the left operand's last layer. -/
def Chain.connect (a b : Chain) : Chain :=
  { layers := a.layers ++ b.layers
    relate := a.relate ++
      match b.relate with
      | [] => []
      | _ :: rest => a.layers.getLast? :: rest }

/-- Modelled from the spec: repeated pairwise composition of a list of
layers, left to right, as the operator chain `l1 > l2 > ... > lk`
performs it. -/
def composeAll (ls : List Layer) : Chain :=
  match ls with
  | [] => ⟨[], []⟩
  | h :: t => t.foldl (fun c l => c.connect (Chain.single l)) (Chain.single h)

/-- Modelled from the spec: a tuple of plain sizes is interpreted as a
homogeneous stack of fixed-size layers followed by an output layer of
the last size. -/
def layersOfSizes (ss : List Nat) : List Layer :=
  ss.dropLast.map Layer.Sigmoid ++ (ss.getLast?.map Layer.Output).toList

/-- Modelled from the spec: the three raw network specifications a
network constructor accepts — a tuple of plain sizes, a flat list of
layers, or a pre-built operator-composed chain. -/
inductive ConnectionSpec where
  | sizes (ss : List Nat)
  | layerList (ls : List Layer)
  | chain (c : Chain)
deriving DecidableEq

/-- Modelled from the spec: turning a raw specification into an
unvalidated chain. -/
def buildChain : ConnectionSpec → Chain
  | .sizes ss => Chain.ofList (layersOfSizes ss)
  | .layerList ls => Chain.ofList ls
  | .chain c => c

/-- Modelled from the spec: the three error kinds of section 7. -/
inductive NetworkError where
  | networkConnectionError
  | shapeError
  | configurationError
deriving DecidableEq

/-- Modelled from the spec: the composed network — the ordered layer
sequence owned by the network (`all_layers` in the tests). -/
structure Network where
  chain : Chain
deriving DecidableEq

/-- The ordered layer sequence of a composed network. -/
def Network.all_layers (net : Network) : List Layer :=
  net.chain.layers

/-- Modelled from the spec: whether a chain ends in the explicit
output-designated terminal layer. -/
def endsWithOutput (ls : List Layer) : Bool :=
  match ls.getLast? with
  | some l => l.isOutput
  | none => false

/-- Modelled from the spec: network construction (`GradientDescent(...)`
in the tests) — builds the chain from the raw specification and
validates the topology, failing with `NetworkConnectionError` when the
chain does not end in an explicit output-designated layer. -/
def buildNetwork (spec : ConnectionSpec) : Except NetworkError Network :=
  let c := buildChain spec
  if endsWithOutput c.layers then .ok ⟨c⟩
  else .error .networkConnectionError

/-! ### Auxiliary lemmas about chain composition -/

theorem connect_single (c : Chain) (l : Layer) :
    c.connect (Chain.single l) =
      ⟨c.layers ++ [l], c.relate ++ [c.layers.getLast?]⟩ := rfl

theorem foldl_connect_single (t : List Layer) :
    ∀ c : Chain,
      t.foldl (fun c l => c.connect (Chain.single l)) c =
        ⟨c.layers ++ t, c.relate ++ chainLinks c.layers.getLast? t⟩ := by
  induction t with
  | nil => intro c; simp [chainLinks]
  | cons l t ih =>
    intro c
    rw [List.foldl_cons, connect_single, ih]
    simp [chainLinks, List.getLast?_concat, List.append_assoc]

theorem ofList_eq_composeAll (ls : List Layer) :
    Chain.ofList ls = composeAll ls := by
  cases ls with
  | nil => rfl
  | cons h t =>
    rw [composeAll, foldl_connect_single t (Chain.single h)]
    rfl

/-! ### Shape and parameter rules of individual layer variants -/

/-- Modelled from the spec: `initialize` of the parametric-activation
(PRelu) layer, given its resolved input shape including the batch axis
at index 0.  It fails with a `ConfigurationError` when a configured
broadcast axis is the batch axis or does not exist in the input shape;
otherwise it allocates the single coefficient parameter `alpha`, whose
shape keeps the sizes of the listed axes (all other axes, the batch
axis included, are collapsed away). -/
def preluInitialize (alphaAxes : List Nat) (fullInputShape : List Nat) :
    Except NetworkError (List (String × List Nat)) :=
  if alphaAxes.contains 0 then .error .configurationError
  else if alphaAxes.any (fun a => fullInputShape.length ≤ a) then
    .error .configurationError
  else .ok [("alpha", alphaAxes.map (fun a => fullInputShape.getD a 0))]

/-- Modelled from the spec: convolution output shape on a
(channels, height, width) input — the standard correlation formula
`floor((input_dim - kernel_dim) / stride) + 1` per spatial axis with
stride 1 and no padding, and the output channel count equal to the
configured filter count; fails with a `ShapeError` when the kernel is
larger than the input. -/
def convOutputShape (filters k1 k2 : Nat) :
    List Nat → Except NetworkError (List Nat)
  | [_, h, w] =>
    if k1 ≤ h ∧ k2 ≤ w then .ok [filters, h - k1 + 1, w - k2 + 1]
    else .error .shapeError
  | _ => .error .shapeError

/-- Modelled from the spec: the parametric-activation (PRelu) forward
function with a scalar coefficient `alpha` — a negative input is
multiplied by the coefficient, a non-negative input passes through
unchanged. -/
def preluActivation (alpha x : ℚ) : ℚ :=
  if x < 0 then alpha * x else x

/-- A 4-axis tensor (batch, channel, height, width) as nested lists. -/
abbrev Tensor4 := List (List (List (List ℚ)))

/-- Modelled from the spec: the channel-slicing forward computation
`x[:, start:stop, :, :]` — each sample keeps the contiguous channel
sub-range `[start, stop)`; batch and spatial axes are untouched. -/
def sliceChannelsOutput (start stop : Nat) (x : Tensor4) : Tensor4 :=
  x.map (fun sample => (sample.drop start).take (stop - start))

/-- Modelled from the spec: the channel-slicing output shape on a
(batch, C, H, W) input — the channel count becomes `stop - start` with
batch and spatial axes preserved; fails (ValueError, of the `ShapeError`
kind) when `stop ≤ start` or the range exceeds the input channel
count. -/
def sliceChannelsShape (start stop : Nat) :
    List Nat → Except NetworkError (List Nat)
  | [b, c, h, w] =>
    if stop ≤ start ∨ c < stop then .error .shapeError
    else .ok [b, stop - start, h, w]
  | _ => .error .shapeError

/-- Modelled from the spec: the reshape output shape on a batched input
shape — with no explicit target all non-batch axes flatten into one;
with an explicit target, its element count must match the input element
count (else `ShapeError`) and the batch axis is prepended to it. -/
def reshapeOutputShape (target : Option (List Nat)) :
    List Nat → Except NetworkError (List Nat)
  | [] => .error .shapeError
  | batch :: rest =>
    match target with
    | none => .ok [batch, rest.prod]
    | some t =>
      if t.prod = rest.prod then .ok (batch :: t) else .error .shapeError

end Neupy

open Neupy in
/-- C1: a chain whose terminal layer is not an explicit
output-designated layer is rejected by network construction with
`NetworkConnectionError`, never accepted. -/
theorem c1_missing_output_layer_fails (spec : ConnectionSpec)
    (h : endsWithOutput (buildChain spec).layers = false) :
    buildNetwork spec = .error .networkConnectionError := by
  simp [buildNetwork, h]

open Neupy in
/-- Witness for C1: the test chain `Sigmoid(10) > Sigmoid(1)`. -/
theorem c1_missing_output_layer_fails_witness :
    endsWithOutput
        (buildChain (.chain (composeAll [.Sigmoid 10, .Sigmoid 1]))).layers
        = false ∧
      buildNetwork (.chain (composeAll [.Sigmoid 10, .Sigmoid 1]))
        = .error .networkConnectionError :=
  ⟨rfl, c1_missing_output_layer_fails _ rfl⟩

open Neupy in
/-- C2: the three construction forms agree — a tuple of plain sizes
builds the same chain as the flat list of the layers it stands for, and
a flat list of layers builds the same chain (same layers in the same
order with the same predecessor links) as repeated pairwise operator
composition of those layers. -/
theorem c2_construction_forms_agree (ss : List Nat) (ls : List Layer) :
    buildChain (.sizes ss) = buildChain (.layerList (layersOfSizes ss)) ∧
      buildChain (.layerList ls) = buildChain (.chain (composeAll ls)) :=
  ⟨rfl, ofList_eq_composeAll ls⟩

open Neupy in
/-- C3: a chain of `N` fixed-size layers followed by one output layer
is accepted, its layer sequence has length `N + 1`, and the declared
sizes are the configured sizes, in order. -/
theorem c3_sizes_in_order (sizes : List Nat) (m : Nat) :
    ∃ net : Network,
      buildNetwork (.layerList (sizes.map Layer.Sigmoid ++ [.Output m]))
          = .ok net ∧
        net.all_layers.length = sizes.length + 1 ∧
        net.all_layers.map Layer.size = sizes ++ [m] := by
  refine ⟨⟨Chain.ofList (sizes.map Layer.Sigmoid ++ [.Output m])⟩, ?_, ?_, ?_⟩
  · simp [buildNetwork, buildChain, endsWithOutput, Chain.ofList,
      List.getLast?_concat, Layer.isOutput]
  · simp [Network.all_layers, Chain.ofList]
  · have hcomp : Layer.size ∘ Layer.Sigmoid = id := rfl
    simp [Network.all_layers, Chain.ofList, List.map_map, hcomp, Layer.size]

open Neupy in
/-- C4: a PRelu layer with broadcast axes `(1, 3)` on a resolved rank-4
input shape whose axis 1 has size 5 and axis 3 has size 8 allocates
exactly one coefficient parameter, of shape `(5, 8)`. -/
theorem c4_prelu_alpha_shape (shape : List Nat) (h4 : shape.length = 4)
    (h1 : shape.getD 1 0 = 5) (h3 : shape.getD 3 0 = 8) :
    preluInitialize [1, 3] shape = .ok [("alpha", [5, 8])] := by
  have hA : ([1, 3] : List Nat).contains 0 = false := rfl
  have hB : ([1, 3] : List Nat).any (fun a => shape.length ≤ a) = false := by
    rw [h4]
    rfl
  unfold preluInitialize
  rw [hA, hB]
  simp only [List.map_cons, List.map_nil]
  rw [h1, h3]
  rfl

open Neupy in
/-- Witness for C4: the test pipeline `Input((3, 10, 10)) >
Convolution((5, 3, 3)) > PRelu(alpha_axes=(1, 3))` — the convolution
output shape is `(5, 8, 8)`, so with the batch axis the PRelu input
shape is `(1, 5, 8, 8)` and the coefficient has shape `(5, 8)`. -/
theorem c4_prelu_alpha_shape_witness :
    convOutputShape 5 3 3 [3, 10, 10] = .ok [5, 8, 8] ∧
      ([1, 5, 8, 8] : List Nat).length = 4 ∧
      ([1, 5, 8, 8] : List Nat).getD 1 0 = 5 ∧
      ([1, 5, 8, 8] : List Nat).getD 3 0 = 8 ∧
      preluInitialize [1, 3] [1, 5, 8, 8] = .ok [("alpha", [5, 8])] :=
  ⟨rfl, by decide, by decide, by decide,
    c4_prelu_alpha_shape [1, 5, 8, 8] (by decide) (by decide) (by decide)⟩

open Neupy in
/-- C5: PRelu initialization fails with a `ConfigurationError` (and
allocates nothing) whenever a configured broadcast axis is the batch
axis 0 or does not exist in the resolved input shape. -/
theorem c5_prelu_invalid_axes (alphaAxes shape : List Nat)
    (h : alphaAxes.contains 0 = true ∨
      alphaAxes.any (fun a => shape.length ≤ a) = true) :
    preluInitialize alphaAxes shape = .error .configurationError := by
  unfold preluInitialize
  rcases h with h | h
  · rw [h]
    rfl
  · cases hb : alphaAxes.contains 0 with
    | false => rw [h]; rfl
    | true => rfl

open Neupy in
/-- Witness for C5: the two test cases on a dense `PRelu(10)` layer
(resolved input shape `(batch, 10)`, rank 2) — broadcast axis 2 does
not exist, and broadcast axis 0 is the batch axis. -/
theorem c5_prelu_invalid_axes_witness :
    (([2] : List Nat).any (fun a => ([1, 10] : List Nat).length ≤ a) = true ∧
        preluInitialize [2] [1, 10] = .error .configurationError) ∧
      (([0] : List Nat).contains 0 = true ∧
        preluInitialize [0] [1, 10] = .error .configurationError) :=
  ⟨⟨by decide, c5_prelu_invalid_axes [2] [1, 10] (Or.inr (by decide))⟩,
    ⟨by decide, c5_prelu_invalid_axes [0] [1, 10] (Or.inl (by decide))⟩⟩

open Neupy in
/-- C6: the PRelu activation with scalar coefficient `0.25` maps
`[10, 1, 0.1, 0, -0.1, -1]` to exactly `[10, 1, 0.1, 0, -0.025, -0.25]`,
and in general leaves a non-negative input unchanged while multiplying
a negative input by the coefficient. -/
theorem c6_prelu_output :
    ([10, 1, 0.1, 0, -0.1, -1] : List ℚ).map (preluActivation 0.25)
        = [10, 1, 0.1, 0, -0.025, -0.25] ∧
      ∀ x : ℚ, preluActivation 0.25 x = if x < 0 then 0.25 * x else x := by
  refine ⟨?_, fun x => rfl⟩
  norm_num [preluActivation]

open Neupy in
/-- C7: channel slicing with `start = 0`, `stop = 30` on a
(batch, C, H, W) input with `C ≥ 30` keeps the batch axis, outputs
exactly 30 channels per sample, and its values are the input's first 30
channels unchanged. -/
theorem c7_slice_first_30_channels (x : Tensor4) (b c h w : Nat)
    (hx : ∀ s ∈ x, 30 ≤ s.length) (hc : 30 ≤ c) :
    sliceChannelsOutput 0 30 x = x.map (fun s => s.take 30) ∧
      (sliceChannelsOutput 0 30 x).length = x.length ∧
      (∀ s ∈ sliceChannelsOutput 0 30 x, s.length = 30) ∧
      sliceChannelsShape 0 30 [b, c, h, w] = .ok [b, 30, h, w] := by
  refine ⟨by simp [sliceChannelsOutput], by simp [sliceChannelsOutput], ?_, ?_⟩
  · intro s hs
    simp only [sliceChannelsOutput, List.mem_map] at hs
    obtain ⟨t, ht, rfl⟩ := hs
    have h30 := hx t ht
    simp [List.length_take]
    omega
  · have hcond : ¬((30 : Nat) ≤ 0 ∨ c < 30) := by omega
    simp only [sliceChannelsShape]
    rw [if_neg hcond]

open Neupy in
/-- The concrete input of the slicing test: `np.arange(60)` reshaped to
`(1, 60, 1, 1)`. -/
def c7Input : Tensor4 :=
  [(List.range 60).map (fun i : ℕ => [[(i : ℚ)]])]

open Neupy in
/-- The test input has 60 channels in its single sample. -/
theorem c7Input_channels : ∀ s ∈ c7Input, 30 ≤ s.length := by
  intro s hs
  simp only [c7Input, List.mem_singleton] at hs
  subst hs
  rw [List.length_map, List.length_range]
  omega

open Neupy in
/-- Witness for C7 at the test input of shape `(1, 60, 1, 1)`. -/
theorem c7_slice_first_30_channels_witness :
    (∀ s ∈ c7Input, 30 ≤ s.length) ∧ (30 : Nat) ≤ 60 ∧
      (sliceChannelsOutput 0 30 c7Input = c7Input.map (fun s => s.take 30) ∧
        (sliceChannelsOutput 0 30 c7Input).length = c7Input.length ∧
        (∀ s ∈ sliceChannelsOutput 0 30 c7Input, s.length = 30) ∧
        sliceChannelsShape 0 30 [1, 60, 1, 1] = .ok [1, 30, 1, 1]) :=
  ⟨c7Input_channels, by decide,
    c7_slice_first_30_channels c7Input 1 60 1 1 c7Input_channels (by decide)⟩

open Neupy in
/-- C8: a reshape layer with no explicit target flattens input shape
`(5, 4, 3, 2, 1)` to `(5, 24)`, and with explicit target `(4, 5)` maps
input shape `(5, 20)` to `(5, 4, 5)`. -/
theorem c8_reshape_shapes :
    reshapeOutputShape none [5, 4, 3, 2, 1] = .ok [5, 24] ∧
      reshapeOutputShape (some [4, 5]) [5, 20] = .ok [5, 4, 5] :=
  ⟨rfl, rfl⟩

/-- C9: when the finished count exceeds the known total, `format_meter`
discards the total and produces exactly the unknown-total rendering. -/
theorem c9_overflow_discards_total (n t e : Nat) (h : t < n) :
    Neupy.format_meter n (some t) e = Neupy.format_meter n none e := by
  simp [Neupy.format_meter, h]

/-- Witness for C9 at `n_finished = 5`, `n_total = 3`, `elapsed = 2`. -/
theorem c9_overflow_discards_total_witness :
    3 < 5 ∧ Neupy.format_meter 5 (some 3) 2 = Neupy.format_meter 5 none 2 :=
  ⟨by decide, c9_overflow_discards_total 5 3 2 (by decide)⟩

/-- C10, counterexample: at `n_finished = 0`, `n_total = 0`, `elapsed = 1`
the unguarded division `frac = float(n_finished) / n_total` divides by
zero (`0 > 0` fails, so the total is not discarded), so `format_meter` is
not total there. -/
theorem c10_zero_total_divides_by_zero :
    Neupy.format_meter 0 (some 0) 1 = none := rfl

/-- C10, amended: `format_meter` is total except when the total is `0`
and the finished count is `0`; a zero elapsed time renders the rate as
`"?"` rather than dividing by it, and a zero finished count renders the
remaining-time estimate as `"?"` rather than dividing by it. -/
theorem c10_format_meter_total (n e t0 : Nat) (t : Option Nat)
    (h : ¬(n = 0 ∧ t = some 0)) :
    (Neupy.format_meter n t e).isSome = true ∧
      Neupy.meter_rate n 0 = "?" ∧ Neupy.meter_left 0 t0 e = "?" := by
  refine ⟨?_, rfl, rfl⟩
  match t with
  | none => simp [Neupy.format_meter]
  | some tv =>
    by_cases hgt : n > tv
    · simp [Neupy.format_meter, hgt]
    · have htv : tv ≠ 0 := by
        intro h0
        subst h0
        exact h ⟨Nat.le_antisymm (Nat.not_lt.mp hgt) (Nat.zero_le n), rfl⟩
      simp [Neupy.format_meter, hgt, htv]

/-- Witness for C10 (amended) at `n_finished = 0`, `n_total = 5`,
`elapsed = 0`. -/
theorem c10_format_meter_total_witness :
    ¬((0 : Nat) = 0 ∧ (some 5 : Option Nat) = some 0) ∧
      ((Neupy.format_meter 0 (some 5) 0).isSome = true ∧
        Neupy.meter_rate 0 0 = "?" ∧ Neupy.meter_left 0 7 0 = "?") :=
  ⟨by decide, c10_format_meter_total 0 0 7 (some 5) (by decide)⟩
